import Mathlib

/-!
Verification development for the dockerfile-generator repository.

The repository ships a React frontend (two revisions of `App.tsx`; the
current one is the revision importing `ColorModeContext` from `main.tsx`)
and packaging around a FastAPI backend (`local-llms-ollama/generate_dockerfile.py`).
The backend source itself is not part of the artefact set; every
backend-side component (RepositoryContextFetcher, PromptBuilder,
ModelInvoker, ResponseParser, Orchestrator) is therefore modelled from the
specification, as indicated in the doc comment of each such definition.
The frontend state machine is translated directly from the current
`App.tsx` source.
-/

/-! ## String helpers (character-level, so that everything evaluates in the kernel) -/

/-- Whitespace test used by the trimming model (space, newline, tab, carriage return). -/
def isWs (c : Char) : Bool :=
  c == ' ' || c == '\n' || c == '\t' || c == '\r'

/-- Drop whitespace from both ends of a character list. -/
def trimChars (l : List Char) : List Char :=
  ((l.dropWhile isWs).reverse.dropWhile isWs).reverse

/-- String-level trim, the model of `.strip()` on raw model output. -/
def strTrim (s : String) : String := ⟨trimChars s.data⟩

/-- Take the first `n` characters of a string. -/
def strTake (n : Nat) (s : String) : String := ⟨s.data.take n⟩

/-- The backquote character that delimits fenced code blocks. -/
def fenceChar : Char := Char.ofNat 96

/-- Split a character list at every occurrence of a triple fence marker.
The resulting segments alternate: outside, inside, outside, ... -/
def splitFenceAux (l : List Char) (acc : List Char) : List (List Char) :=
  match l with
  | [] => [acc.reverse]
  | a :: b :: c :: rest =>
    if a = fenceChar ∧ b = fenceChar ∧ c = fenceChar then
      acc.reverse :: splitFenceAux rest []
    else
      splitFenceAux (b :: c :: rest) (a :: acc)
  | a :: rest => splitFenceAux rest (a :: acc)

/-- Of the alternating segments, keep the inside ones that are closed by a
further fence marker: the odd-indexed segments that are not the final segment. -/
def oddNonFinal (parts : List (List Char)) : List (List Char) :=
  match parts with
  | [] => []
  | [_] => []
  | _ :: b :: rest => if rest = [] then [] else b :: oddNonFinal rest

/-- Drop the info line of a fenced block (the language tag on the opening
fence line): everything up to and including the first newline.  A block
without a newline is kept whole. -/
def dropInfoLine (seg : List Char) : List Char :=
  match seg.dropWhile (fun c => c != '\n') with
  | [] => seg
  | _ :: rest => rest

/-- Modelled from the spec: the fenced code blocks of a raw model answer,
in order, each with its opening info line removed.  Used by generation
parsing to locate the single block the prompt asked for. -/
def fencedBlocks (raw : String) : List String :=
  (oddNonFinal (splitFenceAux raw.data [])).map (fun seg => (⟨dropInfoLine seg⟩ : String))

/-! ## Data model (spec section 3) -/

/-- Modelled from the spec: the error taxonomy of section 7.
RepositoryUnavailable is absent on purpose: it is never surfaced. -/
inductive CoreError where
  | InvalidRequest
  | ModelUnavailable
  | ModelTimeout
  | EmptyModelOutput
deriving DecidableEq

/-- Modelled from the spec: a generation request as ingested by the core. -/
structure GenerationRequest where
  language : String
  specification : String
  repository_reference : Option String
  include_comments : Bool
deriving DecidableEq

/-- Modelled from the spec: the bounded repository summary. -/
structure RepositoryContext where
  file_listing : List String
  detected_primary_language : Option String
  truncated : Bool
deriving DecidableEq

/-- Modelled from the spec: the two prompt kinds.  The Explain kind carries
the exact Dockerfile text the caller resent, per spec sections 4.2 and 9. -/
inductive PromptKind where
  | Generate
  | Explain (dockerfile_text : String)
deriving DecidableEq

/-- Modelled from the spec: the fully rendered instruction sent to the model. -/
structure PromptEnvelope where
  kind : PromptKind
  text : String
deriving DecidableEq

/-- Modelled from the spec: the result of generation parsing. -/
structure GeneratedArtifact where
  dockerfile_text : String
  well_formed : Bool
deriving DecidableEq

/-- Modelled from the spec: the result of explanation parsing; the
`dockerfile_text` field echoes what was explained. -/
structure ExplanationArtifact where
  dockerfile_text : String
  explanation_text : String
deriving DecidableEq

/-! ## RepositoryContextFetcher (spec section 4.1) -/

/-- Modelled from the spec: the possible outcomes of one repository access,
covering the failure modes of section 4.1 (404, network failure,
authentication or rate-limit failure, reference not resolvable). -/
inductive FetchOutcome where
  | success (ctx : RepositoryContext)
  | notFound
  | networkError
  | authOrRateLimit
  | notARepository
deriving DecidableEq

/-- True exactly on a successful repository access. -/
def FetchOutcome.isSuccess : FetchOutcome → Bool
  | .success _ => true
  | _ => false

/-- Modelled from the spec: `fetch(repository_reference)` of section 4.1.
An absent reference returns Absent (`none`) with no network access; every
access failure downgrades to Absent instead of propagating.  The network is
abstracted as an oracle from URL to outcome. -/
def RepositoryContextFetcher.fetch (ref : Option String)
    (oracle : String → FetchOutcome) : Option RepositoryContext :=
  match ref with
  | none => none
  | some url =>
    match oracle url with
    | .success ctx => some ctx
    | _ => none

/-! ## PromptBuilder (spec section 4.2) -/

/-- Ambient data a non-deterministic implementation could consult
(wall-clock time, a random seed).  The builder receives it and must not
let it influence the rendered prompt. -/
structure Env where
  timestamp : Nat
  randomSeed : Nat

/-- Modelled from the spec: the configured cap on specification length. -/
def specCap : Nat := 2000

/-- Modelled from the spec: the configured upper bound on rendered prompt length. -/
def promptBound : Nat := 8000

/-- Modelled from the spec: the comments directive of section 4.2. -/
def commentsDirective (b : Bool) : String :=
  if b then "Request inline comments in the Dockerfile. "
  else "Do not add comments to the Dockerfile. "

/-- Fixed opening of the generation template. -/
def genA : String := "You are generating a Dockerfile. Target language: "

/-- Fixed middle of the generation template: the single-fenced-block instruction. -/
def genB : String := ". Emit exactly one Dockerfile inside a single fenced code block and nothing else. "

/-- Fixed marker preceding the user specification. -/
def genC : String := "User specification: "

/-- Fixed marker following the user specification. -/
def genD : String := " End of user specification."

/-- Fixed opening of the explanation template. -/
def expA : String := "You are explaining a Dockerfile instruction by instruction. Target language: "

/-- Fixed middle of the explanation template. -/
def expB : String := ". "

/-- Fixed marker preceding the embedded Dockerfile text. -/
def expC : String := " Dockerfile to explain: "

/-- Fixed closing of the explanation template. -/
def expD : String := " End of Dockerfile. Explain it instruction by instruction."

/-- Render an optional detected language. -/
def langOpt : Option String → String
  | none => "unknown"
  | some s => s

/-- Modelled from the spec: the deterministic rendering of the repository
context summary, including the partial-context marker required when
`truncated` is set. -/
def renderContext : Option RepositoryContext → String
  | none => ""
  | some c =>
    " Repository context (" ++ (if c.truncated then "partial" else "complete")
      ++ "): files: " ++ String.intercalate ", " c.file_listing
      ++ "; primary language: " ++ langOpt c.detected_primary_language

/-- The essential part of the prompt: template, language, comments
directive and the verbatim user specification; for Explain also the exact
Dockerfile text that was resent. -/
def buildCore (kind : PromptKind) (req : GenerationRequest) : String :=
  match kind with
  | .Generate =>
    genA ++ req.language ++ genB ++ commentsDirective req.include_comments
      ++ genC ++ req.specification ++ genD
  | .Explain d =>
    expA ++ req.language ++ expB ++ commentsDirective req.include_comments
      ++ genC ++ req.specification ++ genD ++ expC ++ d ++ expD

/-- Length of the per-kind payload (the Dockerfile text carried by Explain). -/
def kindPayloadLen : PromptKind → Nat
  | .Generate => 0
  | .Explain d => d.length

/-- Modelled from the spec: `build(kind, request, context)` of section 4.2.
The repository context is the only part trimmed to fit the configured
bound; the specification is embedded verbatim.  The ambient environment is
received but never read. -/
def PromptBuilder.build (env : Env) (kind : PromptKind) (req : GenerationRequest)
    (ctx : Option RepositoryContext) : PromptEnvelope :=
  let core := buildCore kind req
  ⟨kind, core ++ strTake (promptBound - core.length) (renderContext ctx)⟩

/-! ## ModelInvoker (spec section 4.3) -/

/-- Modelled from the spec: one attempt against the model runtime either
returns raw text or fails transiently (unreachable or timed out). -/
inductive ModelOutcome where
  | reply (s : String)
  | unavailable
  | timeout
deriving DecidableEq

/-- True exactly when the attempt produced raw text. -/
def ModelOutcome.isReply : ModelOutcome → Bool
  | .reply _ => true
  | _ => false

/-- The error a failed attempt surfaces as. -/
def failureError : ModelOutcome → CoreError
  | .unavailable => CoreError.ModelUnavailable
  | _ => CoreError.ModelTimeout

/-- Decidable equality for Except values, needed to evaluate pipeline
results on concrete inputs. -/
def exceptDecEq {ε α : Type} [DecidableEq ε] [DecidableEq α] :
    (a b : Except ε α) → Decidable (a = b)
  | .error e, .error f =>
    if h : e = f then .isTrue (by rw [h]) else .isFalse (by intro hh; cases hh; exact h rfl)
  | .error _, .ok _ => .isFalse (by intro h; cases h)
  | .ok _, .error _ => .isFalse (by intro h; cases h)
  | .ok a, .ok b =>
    if h : a = b then .isTrue (by rw [h]) else .isFalse (by intro hh; cases hh; exact h rfl)

instance {ε α : Type} [DecidableEq ε] [DecidableEq α] : DecidableEq (Except ε α) :=
  exceptDecEq

/-- Result of an invocation together with the requests actually sent to
the runtime, so retry behaviour is observable. -/
structure InvokeOutput where
  result : Except CoreError String
  sent : List String
deriving DecidableEq

/-- Modelled from the spec: `invoke(envelope)` of section 4.3.  The runtime
is an oracle from attempt number to outcome.  A first transient failure is
retried once with the identical request; a second failure propagates as
ModelUnavailable or ModelTimeout. -/
def ModelInvoker.invoke (prompt : String) (runtime : Nat → ModelOutcome) : InvokeOutput :=
  match runtime 0 with
  | .reply s => ⟨.ok s, [prompt]⟩
  | _ =>
    match runtime 1 with
    | .reply s => ⟨.ok s, [prompt, prompt]⟩
    | .unavailable => ⟨.error .ModelUnavailable, [prompt, prompt]⟩
    | .timeout => ⟨.error .ModelTimeout, [prompt, prompt]⟩

/-! ## ResponseParser (spec section 4.4) -/

/-- Modelled from the spec: `parse_generation(raw_text)` of section 4.4.
Empty or whitespace-only raw text fails with EmptyModelOutput; exactly one
non-empty fenced block is extracted with `well_formed = true`; anything
else degrades to the entire trimmed raw text with `well_formed = false`. -/
def parse_generation (raw : String) : Except CoreError GeneratedArtifact :=
  if strTrim raw = "" then .error .EmptyModelOutput
  else
    match fencedBlocks raw with
    | [b] => if b = "" then .ok ⟨strTrim raw, false⟩ else .ok ⟨b, true⟩
    | _ => .ok ⟨strTrim raw, false⟩

/-- Modelled from the spec: `parse_explanation(raw_text)` of section 4.4.
The explanation is the trimmed raw text verbatim; the artifact echoes the
Dockerfile text being explained; failure only on empty output. -/
def parse_explanation (dockerfileText : String) (raw : String) :
    Except CoreError ExplanationArtifact :=
  if strTrim raw = "" then .error .EmptyModelOutput
  else .ok ⟨dockerfileText, strTrim raw⟩

/-! ## Orchestrator (spec section 4.5) -/

/-- Modelled from the spec: ingestion of a request (spec section 3
invariants): the specification is truncated to the configured cap before
anything else happens, without trusting the caller. -/
def ingest (req : GenerationRequest) : GenerationRequest :=
  { req with specification := strTake specCap req.specification }

/-- The prompt text a generate call sends: ingestion, then context fetch,
then prompt building. -/
def generatePrompt (env : Env) (req : GenerationRequest)
    (ro : String → FetchOutcome) : String :=
  (PromptBuilder.build env PromptKind.Generate (ingest req)
    (RepositoryContextFetcher.fetch (ingest req).repository_reference ro)).text

/-- The prompt text an explain call sends. -/
def explainPrompt (env : Env) (req : GenerationRequest) (d : String)
    (ro : String → FetchOutcome) : String :=
  (PromptBuilder.build env (PromptKind.Explain d) (ingest req)
    (RepositoryContextFetcher.fetch (ingest req).repository_reference ro)).text

/-- Outcome of a generate call, with the requests sent to the runtime. -/
structure GenerateOutput where
  result : Except CoreError GeneratedArtifact
  sent : List String
deriving DecidableEq

/-- Outcome of an explain call, with the requests sent to the runtime. -/
structure ExplainOutput where
  result : Except CoreError ExplanationArtifact
  sent : List String
deriving DecidableEq

/-- Modelled from the spec: `generate(request)` of section 4.5, the single
synchronous pipeline fetch, build, invoke, parse.  The orchestrator adds
no retries of its own. -/
def Orchestrator.generate (env : Env) (req : GenerationRequest)
    (ro : String → FetchOutcome) (rt : Nat → ModelOutcome) : GenerateOutput :=
  let inv := ModelInvoker.invoke (generatePrompt env req ro) rt
  ⟨inv.result.bind (fun raw => parse_generation raw), inv.sent⟩

/-- Modelled from the spec: `explain(request, dockerfile_text)` of section
4.5; the Dockerfile text is an explicit parameter resent by the caller. -/
def Orchestrator.explain (env : Env) (req : GenerationRequest) (d : String)
    (ro : String → FetchOutcome) (rt : Nat → ModelOutcome) : ExplainOutput :=
  let inv := ModelInvoker.invoke (explainPrompt env req d ro) rt
  ⟨inv.result.bind (fun raw => parse_explanation d raw), inv.sent⟩

/-! ## Frontend state machine, translated from the current `App.tsx`
(the revision embedded after the workflow file, the one importing
`ColorModeContext` from `main.tsx`).  The transient `loading` and
`loadingMessage` states are set and cleared within a single handler
invocation and are omitted; the snackbar object is flattened into three
fields. -/

/-- Snackbar severity, from the `SnackbarState` type in `App.tsx`. -/
inductive Severity where
  | success
  | error
deriving DecidableEq

/-- The `useState` hooks of the current `App` component. -/
structure AppState where
  selectedLanguage : String
  specifications : String
  repoUrl : String
  dockerfile : String
  explanation : String
  showExplanation : Bool
  includeComments : Bool
  snackbarOpen : Bool
  snackbarMessage : String
  snackbarSeverity : Severity
deriving DecidableEq

/-- The initial state of the `App` component: every `useState` default. -/
def initialState : AppState :=
  ⟨"", "", "", "", "", false, false, false, "", Severity.success⟩

/-- `handleLanguageChange` of the current `App.tsx`: sets the language and
resets specifications, repo URL, dockerfile, explanation, the explanation
toggle and the comments checkbox. -/
def handleLanguageChange (s : AppState) (v : String) : AppState :=
  { s with selectedLanguage := v, specifications := "", repoUrl := "",
           dockerfile := "", explanation := "", showExplanation := false,
           includeComments := false }

/-- The specifications `onChange` handler: updates only when the new value
is within 2000 characters. -/
def handleSpecificationsChange (s : AppState) (v : String) : AppState :=
  if v.length ≤ 2000 then { s with specifications := v } else s

/-- The repo-URL `onChange` handler. -/
def handleRepoUrlChange (s : AppState) (v : String) : AppState :=
  { s with repoUrl := v }

/-- The include-comments checkbox `onChange` handler. -/
def handleCommentsToggle (s : AppState) (b : Bool) : AppState :=
  { s with includeComments := b }

/-- `handleGenerate`, successful response: stores the response Dockerfile
and clears the explanation.  The button is disabled while no language is
selected, modelled by the guard. -/
def handleGenerateSuccess (s : AppState) (d : String) : AppState :=
  if s.selectedLanguage = "" then s
  else { s with dockerfile := d, explanation := "", showExplanation := false }

/-- `handleGenerate`, error path: only the snackbar changes. -/
def handleGenerateFailure (s : AppState) : AppState :=
  { s with snackbarOpen := true, snackbarMessage := "Error generating Dockerfile",
           snackbarSeverity := Severity.error }

/-- `handleExplain`, successful response: stores the explanation and shows
it.  The button is disabled while no Dockerfile is displayed, modelled by
the guard. -/
def handleExplainSuccess (s : AppState) (t : String) : AppState :=
  if s.dockerfile = "" then s
  else { s with explanation := t, showExplanation := true }

/-- `handleExplain`, error path: only the snackbar changes. -/
def handleExplainFailure (s : AppState) : AppState :=
  { s with snackbarOpen := true, snackbarMessage := "Error generating explanation",
           snackbarSeverity := Severity.error }

/-- `handleCopy`: the clipboard write is external; only the snackbar changes. -/
def handleCopy (s : AppState) : AppState :=
  { s with snackbarOpen := true, snackbarMessage := "Dockerfile copied to clipboard!",
           snackbarSeverity := Severity.success }

/-- The user-visible events of the `App` component. -/
inductive UiEvent where
  | languageChange (v : String)
  | specificationsChange (v : String)
  | repoUrlChange (v : String)
  | commentsToggle (b : Bool)
  | generateSuccess (d : String)
  | generateFailure
  | explainSuccess (t : String)
  | explainFailure
  | copy
deriving DecidableEq

/-- One step of the `App` component under an event. -/
def uiStep (s : AppState) (e : UiEvent) : AppState :=
  match e with
  | .languageChange v => handleLanguageChange s v
  | .specificationsChange v => handleSpecificationsChange s v
  | .repoUrlChange v => handleRepoUrlChange s v
  | .commentsToggle b => handleCommentsToggle s b
  | .generateSuccess d => handleGenerateSuccess s d
  | .generateFailure => handleGenerateFailure s
  | .explainSuccess t => handleExplainSuccess s t
  | .explainFailure => handleExplainFailure s
  | .copy => handleCopy s

/-- Ghost bookkeeping for the provenance invariant: the language that was
selected when the displayed Dockerfile was generated.  It changes exactly
when a generate response is stored. -/
def trackGen (s : AppState) (gl : String) (e : UiEvent) : String :=
  match e with
  | .generateSuccess _ => if s.selectedLanguage = "" then gl else s.selectedLanguage
  | _ => gl

/-- Reachable App states, paired with the ghost generation-time language. -/
inductive Tracked : AppState → String → Prop where
  | init : Tracked initialState ""
  | next (s : AppState) (gl : String) (e : UiEvent) :
      Tracked s gl → Tracked (uiStep s e) (trackGen s gl e)

/-! ## Concrete fixtures used by witnesses -/

/-- A concrete environment. -/
def env0 : Env := ⟨12345, 678⟩

/-- A second concrete environment with different ambient data. -/
def env1 : Env := ⟨99999, 1⟩

/-- A concrete well-formed request. -/
def req0 : GenerationRequest := ⟨"Python", "multi-stage build", none, false⟩

/-- A concrete request carrying a repository reference. -/
def reqRepo : GenerationRequest :=
  ⟨"Python", "multi-stage build", some "https://github.com/owner/repo", false⟩

/-- A specification of length 2001, one over the configured cap. -/
def longSpec : String := ⟨List.replicate 2001 'x'⟩

/-- A concrete oversized request. -/
def reqLong : GenerationRequest := ⟨"Python", longSpec, none, false⟩

/-- A repository oracle on which every access yields a 404. -/
def oracleNF : String → FetchOutcome := fun _ => FetchOutcome.notFound

/-- A runtime that answers a fixed raw text on every attempt. -/
def replyOK : Nat → ModelOutcome := fun _ => ModelOutcome.reply "ok"

/-- A runtime that times out on every attempt. -/
def alwaysTimeout : Nat → ModelOutcome := fun _ => ModelOutcome.timeout

/-- The raw model text of the fallback example in the spec (section 8). -/
def rawC3 : String := "Sure! Here\x27s your file:\n\nFROM python:3.11\n"

/-- A raw model text with a single fenced block wrapping a Dockerfile. -/
def rawC4 : String :=
  "Here is the Dockerfile:\n```\nFROM node:20\nWORKDIR /app\n```\nDone."

/-- A concrete repository context. -/
def ctx0 : RepositoryContext := ⟨["app.py", "requirements.txt"], some "Python", true⟩

/-- A reachable demo state: select Python, then store a generate response. -/
def s1Demo : AppState := handleLanguageChange initialState "Python"

/-- The demo state after the generate response is stored. -/
def sDemo : AppState := handleGenerateSuccess s1Demo "FROM python:3.11-slim"

/-! ## Helper lemmas -/

/-- Splitting a fence-free character list yields a single segment. -/
theorem splitFenceAux_no_fence (l : List Char) : ∀ (acc : List Char),
    (∀ c ∈ l, c ≠ fenceChar) → splitFenceAux l acc = [acc.reverse ++ l] := by
  induction l with
  | nil => intro acc _; simp [splitFenceAux]
  | cons a t ih =>
    intro acc hfree
    have ha : a ≠ fenceChar := hfree a (by simp)
    have htail : ∀ c ∈ t, c ≠ fenceChar := fun c hc => hfree c (by simp [hc])
    cases t with
    | nil =>
      show splitFenceAux [] (a :: acc) = [acc.reverse ++ [a]]
      simp [splitFenceAux]
    | cons b t2 =>
      cases t2 with
      | nil =>
        show splitFenceAux [b] (a :: acc) = [acc.reverse ++ [a, b]]
        rw [ih (a :: acc) htail]
        simp
      | cons c rest =>
        show (if a = fenceChar ∧ b = fenceChar ∧ c = fenceChar then
              acc.reverse :: splitFenceAux rest []
            else splitFenceAux (b :: c :: rest) (a :: acc))
            = [acc.reverse ++ a :: b :: c :: rest]
        rw [if_neg (by intro h; exact ha h.1)]
        rw [ih (a :: acc) htail]
        simp

/-- If trimming a character list leaves nothing, every character is whitespace. -/
theorem all_ws_of_trim_nil (l : List Char) (h : trimChars l = []) :
    ∀ c ∈ l, isWs c = true := by
  unfold trimChars at h
  rw [List.reverse_eq_nil_iff] at h
  rw [List.dropWhile_eq_nil_iff] at h
  intro c hc
  have hsplit : l.takeWhile isWs ++ l.dropWhile isWs = l :=
    List.takeWhile_append_dropWhile isWs l
  rw [← hsplit] at hc
  rcases List.mem_append.mp hc with h1 | h2
  · exact List.mem_takeWhile_imp h1
  · exact h c (List.mem_reverse.mpr h2)

/-- A whitespace character is not the fence character. -/
theorem ws_ne_fence (c : Char) (h : isWs c = true) : c ≠ fenceChar := by
  intro he
  subst he
  exact absurd h (by decide)

/-- Whitespace-only raw text contains no fenced block. -/
theorem fencedBlocks_nil_of_trim_empty (s : String) (h : strTrim s = "") :
    fencedBlocks s = [] := by
  have hl : trimChars s.data = [] := congrArg String.data h
  have hnf : ∀ c ∈ s.data, c ≠ fenceChar :=
    fun c hc => ws_ne_fence c (all_ws_of_trim_nil s.data hl c hc)
  unfold fencedBlocks
  rw [splitFenceAux_no_fence s.data [] hnf]
  rfl

/-! ## Claim theorems -/

/-- Claim C3 counterexample: on the very example the claim gives, the
fallback keeps the entire trimmed raw text, prose included, so the
artifact is not the bare `FROM python:3.11` line the claim announces. -/
theorem fallback_example_keeps_whole_trimmed_text :
    parse_generation rawC3
      = Except.ok ⟨"Sure! Here\x27s your file:\n\nFROM python:3.11", false⟩ ∧
    parse_generation rawC3 ≠ Except.ok ⟨"FROM python:3.11", false⟩ := by
  constructor
  · rfl
  · decide

/-- Claim C3 (amended): for raw model text whose trimmed form is non-empty
and which contains no fenced code block, parse_generation does not fail:
it returns the entire trimmed raw text with well_formed = false. -/
theorem fallback_returns_trimmed_raw (raw : String)
    (h1 : strTrim raw ≠ "") (h2 : fencedBlocks raw = []) :
    parse_generation raw = Except.ok ⟨strTrim raw, false⟩ := by
  unfold parse_generation
  rw [if_neg h1, h2]

/-- Claim C3 witness: the amended statement evaluated on the spec example. -/
theorem fallback_returns_trimmed_raw_witness :
    parse_generation rawC3 = Except.ok ⟨strTrim rawC3, false⟩ :=
  fallback_returns_trimmed_raw rawC3 (by decide) (by decide)

/-- Claim C4: raw model text with exactly one fenced code block of
non-empty content parses to exactly that content with well_formed = true. -/
theorem single_fenced_block_extracted (raw b : String)
    (hb : fencedBlocks raw = [b]) (hne : b ≠ "") :
    parse_generation raw = Except.ok ⟨b, true⟩ := by
  have htrim : strTrim raw ≠ "" := by
    intro h0
    rw [fencedBlocks_nil_of_trim_empty raw h0] at hb
    exact absurd hb (by simp)
  unfold parse_generation
  rw [if_neg htrim, hb]
  simp [hne]

/-- Claim C4 witness: a single fenced block wrapping the two-instruction
Dockerfile of the spec example is extracted verbatim and marked well-formed. -/
theorem single_fenced_block_extracted_witness :
    parse_generation rawC4 = Except.ok ⟨"FROM node:20\nWORKDIR /app\n", true⟩ :=
  single_fenced_block_extracted rawC4 "FROM node:20\nWORKDIR /app\n"
    (by decide) (by decide)

/-- Claim C5: empty or whitespace-only raw model text makes both parsers,
and therefore the generate and explain operations, fail with
EmptyModelOutput; conversely parse_explanation fails only on such input
and otherwise returns the trimmed raw text verbatim. -/
theorem empty_output_fails (raw d : String) (env : Env) (req : GenerationRequest)
    (ro : String → FetchOutcome) :
    (strTrim raw = "" →
      parse_generation raw = Except.error CoreError.EmptyModelOutput ∧
      parse_explanation d raw = Except.error CoreError.EmptyModelOutput ∧
      (Orchestrator.generate env req ro (fun _ => ModelOutcome.reply raw)).result
        = Except.error CoreError.EmptyModelOutput ∧
      (Orchestrator.explain env req d ro (fun _ => ModelOutcome.reply raw)).result
        = Except.error CoreError.EmptyModelOutput) ∧
    (strTrim raw ≠ "" → parse_explanation d raw = Except.ok ⟨d, strTrim raw⟩) := by
  constructor
  · intro h
    refine ⟨?_, ?_, ?_, ?_⟩
    · simp [parse_generation, h]
    · simp [parse_explanation, h]
    · simp [Orchestrator.generate, ModelInvoker.invoke, Except.bind, parse_generation, h]
    · simp [Orchestrator.explain, ModelInvoker.invoke, Except.bind, parse_explanation, h]
  · intro h
    simp [parse_explanation, h]

/-- Claim C5 witness: evaluated on whitespace-only and non-empty raw text. -/
theorem empty_output_fails_witness :
    parse_generation " \n " = Except.error CoreError.EmptyModelOutput ∧
    (Orchestrator.generate env0 req0 oracleNF (fun _ => ModelOutcome.reply " \n ")).result
      = Except.error CoreError.EmptyModelOutput ∧
    parse_explanation "FROM alpine" "ok" = Except.ok ⟨"FROM alpine", strTrim "ok"⟩ := by
  refine ⟨?_, ?_, ?_⟩
  · exact ((empty_output_fails " \n " "d" env0 req0 oracleNF).1 (by decide)).1
  · exact ((empty_output_fails " \n " "d" env0 req0 oracleNF).1 (by decide)).2.2.1
  · exact (empty_output_fails "ok" "FROM alpine" env0 req0 oracleNF).2 (by decide)

/-- Claim C1: whatever the repository oracle and the model runtime do, a
successful explain call returns an artifact whose dockerfile field is the
very text the caller resent, byte for byte. -/
theorem explain_echoes_dockerfile (env : Env) (req : GenerationRequest) (d : String)
    (ro : String → FetchOutcome) (rt : Nat → ModelOutcome) (art : ExplanationArtifact)
    (h : (Orchestrator.explain env req d ro rt).result = Except.ok art) :
    art.dockerfile_text = d := by
  have h' : ((ModelInvoker.invoke (explainPrompt env req d ro) rt).result).bind
      (fun raw => parse_explanation d raw) = Except.ok art := h
  cases hres : (ModelInvoker.invoke (explainPrompt env req d ro) rt).result with
  | error e => rw [hres] at h'; simp [Except.bind] at h'
  | ok raw =>
    rw [hres] at h'
    by_cases ht : strTrim raw = ""
    · simp [Except.bind, parse_explanation, ht] at h'
    · simp [Except.bind, parse_explanation, ht] at h'
      rw [← h']

set_option maxRecDepth 8000 in
/-- Claim C1 witness: a concrete explain call echoes its input Dockerfile. -/
theorem explain_echoes_dockerfile_witness :
    (⟨"FROM alpine", "ok"⟩ : ExplanationArtifact).dockerfile_text = "FROM alpine" :=
  explain_echoes_dockerfile env0 req0 "FROM alpine" oracleNF replyOK
    ⟨"FROM alpine", "ok"⟩ (by decide)

/-- Claim C2: an oversized specification is truncated at ingestion to
exactly the configured cap, and the generate pipeline behaves exactly as
if it had received the truncated request, so an oversized specification is
never accepted whole. -/
theorem ingestion_truncates_oversized_spec (req : GenerationRequest)
    (h : specCap < req.specification.length) :
    (ingest req).specification.length = specCap ∧
    (∀ (env : Env) (ro : String → FetchOutcome) (rt : Nat → ModelOutcome),
      Orchestrator.generate env req ro rt = Orchestrator.generate env (ingest req) ro rt) := by
  constructor
  · show (req.specification.data.take specCap).length = specCap
    rw [List.length_take]
    exact Nat.min_eq_left (Nat.le_of_lt h)
  · intro env ro rt
    have hid : ingest (ingest req) = ingest req := by
      simp [ingest, strTake, List.take_take]
    simp [Orchestrator.generate, generatePrompt, hid]

/-- Claim C2 witness: a specification of length 2001 is truncated to 2000. -/
theorem ingestion_truncates_oversized_spec_witness :
    (ingest reqLong).specification.length = specCap :=
  (ingestion_truncates_oversized_spec reqLong
    (by show specCap < (List.replicate 2001 'x').length
        rw [List.length_replicate]
        decide)).1

/-- Claim C6: every repository-access failure (404, network error,
authentication or rate-limit failure, unresolvable reference) downgrades
the context to Absent, and the generate call is then identical to the same
call without any repository reference: the failure never surfaces. -/
theorem repository_failure_degrades_to_absent (url : String)
    (ro : String → FetchOutcome) (hfail : (ro url).isSuccess = false) :
    RepositoryContextFetcher.fetch (some url) ro = none ∧
    (∀ (env : Env) (req : GenerationRequest) (rt : Nat → ModelOutcome)
        (ro2 : String → FetchOutcome),
      req.repository_reference = some url →
      Orchestrator.generate env req ro rt
        = Orchestrator.generate env { req with repository_reference := none } ro2 rt) := by
  have hnone : RepositoryContextFetcher.fetch (some url) ro = none := by
    cases hro : ro url with
    | success ctx => rw [hro] at hfail; simp [FetchOutcome.isSuccess] at hfail
    | notFound => simp [RepositoryContextFetcher.fetch, hro]
    | networkError => simp [RepositoryContextFetcher.fetch, hro]
    | authOrRateLimit => simp [RepositoryContextFetcher.fetch, hro]
    | notARepository => simp [RepositoryContextFetcher.fetch, hro]
  refine ⟨hnone, ?_⟩
  intro env req rt ro2 href
  have h1 : RepositoryContextFetcher.fetch (ingest req).repository_reference ro = none := by
    show RepositoryContextFetcher.fetch req.repository_reference ro = none
    rw [href]
    exact hnone
  have hp : generatePrompt env req ro
      = generatePrompt env { req with repository_reference := none } ro2 := by
    unfold generatePrompt
    rw [h1]
    rfl
  unfold Orchestrator.generate
  rw [hp]

/-- Claim C6 witness: with a 404 oracle, a concrete generate call with a
repository URL equals the same call without one. -/
theorem repository_failure_degrades_to_absent_witness :
    RepositoryContextFetcher.fetch (some "https://github.com/owner/repo") oracleNF = none ∧
    Orchestrator.generate env0 reqRepo oracleNF replyOK
      = Orchestrator.generate env0 { reqRepo with repository_reference := none }
          oracleNF replyOK := by
  constructor
  · exact (repository_failure_degrades_to_absent "https://github.com/owner/repo"
      oracleNF (by decide)).1
  · exact (repository_failure_degrades_to_absent "https://github.com/owner/repo"
      oracleNF (by decide)).2 env0 reqRepo replyOK oracleNF (by decide)

/-- Claim C7: the rendered prompt is a function of (kind, request,
context) alone; any two environments (timestamps, random seeds) produce
byte-identical output. -/
theorem prompt_builder_deterministic (e1 e2 : Env) (kind : PromptKind)
    (req : GenerationRequest) (ctx : Option RepositoryContext) :
    PromptBuilder.build e1 kind req ctx = PromptBuilder.build e2 kind req ctx := rfl

/-- Claim C7 witness: two concrete environments with different ambient
data render the identical prompt. -/
theorem prompt_builder_deterministic_witness :
    PromptBuilder.build env0 PromptKind.Generate req0 (some ctx0)
      = PromptBuilder.build env1 PromptKind.Generate req0 (some ctx0) :=
  prompt_builder_deterministic env0 env1 PromptKind.Generate req0 (some ctx0)

/-- Claim C8: for any ingested request (specification within the cap,
language within the size of the supported-language names) and any
repository context, the rendered prompt stays within the configured upper
bound, and only the repository context is trimmed to achieve this — the
user specification appears verbatim inside the rendered prompt. -/
theorem prompt_respects_length_budget (env : Env) (kind : PromptKind)
    (req : GenerationRequest) (ctx : Option RepositoryContext)
    (hs : req.specification.length ≤ specCap)
    (hl : req.language.length ≤ 200)
    (hk : kindPayloadLen kind ≤ 4000) :
    (PromptBuilder.build env kind req ctx).text.length ≤ promptBound ∧
    (∃ a b : String,
      (PromptBuilder.build env kind req ctx).text = a ++ req.specification ++ b) := by
  have hcd : (commentsDirective req.include_comments).length ≤ 60 := by
    cases hb : req.include_comments <;> simp [commentsDirective] <;> decide
  have hcore : (buildCore kind req).length ≤ promptBound := by
    have hspec : specCap = 2000 := rfl
    have hpb : promptBound = 8000 := rfl
    cases kind with
    | Generate =>
      simp only [buildCore, String.length_append]
      have hA : genA.length ≤ 100 := by decide
      have hB : genB.length ≤ 100 := by decide
      have hC : genC.length ≤ 100 := by decide
      have hD : genD.length ≤ 100 := by decide
      omega
    | Explain d =>
      simp only [buildCore, String.length_append]
      simp only [kindPayloadLen] at hk
      have hA : expA.length ≤ 100 := by decide
      have hB : expB.length ≤ 100 := by decide
      have hC : genC.length ≤ 100 := by decide
      have hD : genD.length ≤ 100 := by decide
      have hE : expC.length ≤ 100 := by decide
      have hF : expD.length ≤ 100 := by decide
      omega
  constructor
  · show ((buildCore kind req)
      ++ strTake (promptBound - (buildCore kind req).length) (renderContext ctx)).length
      ≤ promptBound
    rw [String.length_append]
    have htk : (strTake (promptBound - (buildCore kind req).length)
        (renderContext ctx)).length ≤ promptBound - (buildCore kind req).length := by
      show ((renderContext ctx).data.take _).length ≤ _
      rw [List.length_take]
      exact Nat.min_le_left _ _
    omega
  · cases kind with
    | Generate =>
      refine ⟨genA ++ req.language ++ genB ++ commentsDirective req.include_comments ++ genC,
        genD ++ strTake (promptBound - (buildCore PromptKind.Generate req).length)
          (renderContext ctx), ?_⟩
      show (buildCore PromptKind.Generate req) ++ _ = _
      simp only [buildCore, String.append_assoc]
    | Explain d =>
      refine ⟨expA ++ req.language ++ expB ++ commentsDirective req.include_comments ++ genC,
        genD ++ expC ++ d ++ expD
          ++ strTake (promptBound - (buildCore (PromptKind.Explain d) req).length)
            (renderContext ctx), ?_⟩
      show (buildCore (PromptKind.Explain d) req) ++ _ = _
      simp only [buildCore, String.append_assoc]

/-- Claim C8 witness: a concrete request with a concrete repository
context renders within the bound with its specification embedded whole. -/
theorem prompt_respects_length_budget_witness :
    (PromptBuilder.build env0 PromptKind.Generate req0 (some ctx0)).text.length ≤ promptBound ∧
    (∃ a b : String,
      (PromptBuilder.build env0 PromptKind.Generate req0 (some ctx0)).text
        = a ++ req0.specification ++ b) :=
  prompt_respects_length_budget env0 PromptKind.Generate req0 (some ctx0)
    (by decide) (by decide) (by decide)

/-- Claim C9: the invoker sends the identical prompt at most twice (one
transient retry), two consecutive failures propagate the second failure as
ModelUnavailable or ModelTimeout, and the orchestrator adds no retries of
its own: each generate or explain call sends exactly what one invocation
sends, hence at most two requests. -/
theorem invoker_retries_at_most_once (p : String) (rt : Nat → ModelOutcome) :
    ((ModelInvoker.invoke p rt).sent.length ≤ 2 ∧
     (∀ q ∈ (ModelInvoker.invoke p rt).sent, q = p)) ∧
    ((rt 0).isReply = false → (rt 1).isReply = false →
      (ModelInvoker.invoke p rt).result = Except.error (failureError (rt 1)) ∧
      ((ModelInvoker.invoke p rt).result = Except.error CoreError.ModelUnavailable ∨
       (ModelInvoker.invoke p rt).result = Except.error CoreError.ModelTimeout)) ∧
    (∀ (env : Env) (req : GenerationRequest) (d : String) (ro : String → FetchOutcome),
      (Orchestrator.generate env req ro rt).sent
        = (ModelInvoker.invoke (generatePrompt env req ro) rt).sent ∧
      (Orchestrator.generate env req ro rt).sent.length ≤ 2 ∧
      (Orchestrator.explain env req d ro rt).sent
        = (ModelInvoker.invoke (explainPrompt env req d ro) rt).sent ∧
      (Orchestrator.explain env req d ro rt).sent.length ≤ 2) := by
  have hlen : ∀ q : String, (ModelInvoker.invoke q rt).sent.length ≤ 2 := by
    intro q
    cases h0 : rt 0 <;> cases h1 : rt 1 <;>
      simp [ModelInvoker.invoke, h0, h1]
  refine ⟨⟨hlen p, ?_⟩, ?_, ?_⟩
  · intro q hq
    cases h0 : rt 0 with
    | reply s => simp [ModelInvoker.invoke, h0] at hq; exact hq
    | unavailable =>
      cases h1 : rt 1 <;> simp [ModelInvoker.invoke, h0, h1] at hq <;> exact hq
    | timeout =>
      cases h1 : rt 1 <;> simp [ModelInvoker.invoke, h0, h1] at hq <;> exact hq
  · intro hf0 hf1
    cases h0 : rt 0 with
    | reply s => rw [h0] at hf0; simp [ModelOutcome.isReply] at hf0
    | unavailable =>
      cases h1 : rt 1 with
      | reply s => rw [h1] at hf1; simp [ModelOutcome.isReply] at hf1
      | unavailable => simp [ModelInvoker.invoke, h0, h1, failureError]
      | timeout => simp [ModelInvoker.invoke, h0, h1, failureError]
    | timeout =>
      cases h1 : rt 1 with
      | reply s => rw [h1] at hf1; simp [ModelOutcome.isReply] at hf1
      | unavailable => simp [ModelInvoker.invoke, h0, h1, failureError]
      | timeout => simp [ModelInvoker.invoke, h0, h1, failureError]
  · intro env req d ro
    exact ⟨rfl, hlen _, rfl, hlen _⟩

/-- Claim C9 witness: against a runtime that always times out, a concrete
invocation sends at most two requests and fails with ModelTimeout. -/
theorem invoker_retries_at_most_once_witness :
    (ModelInvoker.invoke "PROMPT" alwaysTimeout).sent.length ≤ 2 ∧
    (ModelInvoker.invoke "PROMPT" alwaysTimeout).result
      = Except.error CoreError.ModelTimeout := by
  refine ⟨((invoker_retries_at_most_once "PROMPT" alwaysTimeout).1).1, ?_⟩
  exact (((invoker_retries_at_most_once "PROMPT" alwaysTimeout).2).1
    (by decide) (by decide)).1

/-- Claim C10: in the current App, changing the selected language resets
the Dockerfile, explanation, specifications, repository URL and comments
flag; consequently, in every reachable state that displays a Dockerfile,
that Dockerfile was generated while the currently selected language was
the selected one. -/
theorem language_change_clears_outputs :
    (∀ (s : AppState) (v : String),
      (handleLanguageChange s v).selectedLanguage = v ∧
      (handleLanguageChange s v).dockerfile = "" ∧
      (handleLanguageChange s v).explanation = "" ∧
      (handleLanguageChange s v).showExplanation = false ∧
      (handleLanguageChange s v).specifications = "" ∧
      (handleLanguageChange s v).repoUrl = "" ∧
      (handleLanguageChange s v).includeComments = false) ∧
    (∀ (s : AppState) (gl : String),
      Tracked s gl → s.dockerfile ≠ "" → gl = s.selectedLanguage) := by
  constructor
  · intro s v
    exact ⟨rfl, rfl, rfl, rfl, rfl, rfl, rfl⟩
  · intro s gl h
    induction h with
    | init => intro hd; exact absurd rfl hd
    | next s0 gl0 e h0 ih =>
      cases e with
      | languageChange v => intro hd; exact absurd rfl hd
      | specificationsChange v =>
        intro hd
        by_cases hv : v.length ≤ 2000
        · simp only [uiStep, handleSpecificationsChange, if_pos hv] at hd
          simp only [uiStep, handleSpecificationsChange, trackGen, if_pos hv]
          exact ih hd
        · simp only [uiStep, handleSpecificationsChange, if_neg hv] at hd
          simp only [uiStep, handleSpecificationsChange, trackGen, if_neg hv]
          exact ih hd
      | repoUrlChange v => intro hd; exact ih hd
      | commentsToggle b => intro hd; exact ih hd
      | generateSuccess d =>
        intro hd
        by_cases hL : s0.selectedLanguage = ""
        · simp only [uiStep, handleGenerateSuccess, if_pos hL] at hd
          simp only [uiStep, handleGenerateSuccess, trackGen, if_pos hL]
          exact ih hd
        · simp only [uiStep, handleGenerateSuccess, trackGen, if_neg hL]
      | generateFailure => intro hd; exact ih hd
      | explainSuccess t =>
        intro hd
        by_cases hD : s0.dockerfile = ""
        · simp only [uiStep, handleExplainSuccess, if_pos hD] at hd
          simp only [uiStep, handleExplainSuccess, trackGen, if_pos hD]
          exact ih hd
        · simp only [uiStep, handleExplainSuccess, trackGen, if_neg hD]
          exact ih hD
      | explainFailure => intro hd; exact ih hd
      | copy => intro hd; exact ih hd

/-- Claim C10 witness: select Python, generate; the displayed Dockerfile
was generated under the currently selected language. -/
theorem language_change_clears_outputs_witness :
    sDemo.dockerfile ≠ "" ∧ "Python" = sDemo.selectedLanguage := by
  have h1 : Tracked s1Demo "" :=
    Tracked.next initialState "" (UiEvent.languageChange "Python") Tracked.init
  have htg : trackGen s1Demo "" (UiEvent.generateSuccess "FROM python:3.11-slim")
      = "Python" := by decide
  have ht : Tracked sDemo "Python" :=
    htg ▸ Tracked.next s1Demo "" (UiEvent.generateSuccess "FROM python:3.11-slim") h1
  exact ⟨by decide, language_change_clears_outputs.2 sDemo "Python" ht (by decide)⟩
